import Mathlib

/-!
# Verification of the RaptureTwelve retrieval and score-fusion core

A shallow embedding, in Lean 4, of the retrieval core of the
RaptureTwelve_Hack4Safety repository:

* `backend/vector_retrieval.py` — metadata filter builder
  (`create_metadata_filter`), per-space searchers
  (`search_face_embeddings`, `search_text_embeddings`), the dual-space
  search driver (`parallel_search`), the score-fusion engine
  (`combine_results`) and the public orchestrator (`search_and_combine`).
* `backend/face_recognition_integration.py` — the physical-attribute
  comparator (`compare_physical_attributes`).

Modelling conventions:

* Python floats are modelled as exact rationals (`ℚ`).
* Python `None` becomes `Option.none`; Python truthiness of ints and
  strings (`0` and `""` are falsy) is modelled explicitly by `truthyInt`
  and `truthyStr`.
* The Python `dict` keyed by PID in `combine_results` is modelled as an
  association list in insertion order, exactly mirroring the two
  accumulation passes of the source.
* Python `list.sort(key=..., reverse=True)` (a stable descending sort)
  is modelled by a stable insertion sort `sortDesc`.
* The Qdrant client is an abstract search function returning
  `Except String (List RawHit)`; a raised exception is an `Except.error`
  value, which the searchers catch and turn into `[]` exactly as the
  `try/except` blocks of the source do.
-/

/-- Python truthiness for an optional integer: `None` and `0` are falsy. -/
def truthyInt : Option Int → Bool
  | none => false
  | some n => n != 0

/-- Python truthiness for an optional string: `None` and `""` are falsy. -/
def truthyStr : Option String → Bool
  | none => false
  | some s => s != ""

/-! ## Data model of the vector-retrieval pipeline -/

/-- A raw hit returned by the similarity index: `result.score` plus the
payload fields read by the searchers (`pid`, `age`, `gender`, `height_cm`). -/
structure RawHit where
  pid : String
  score : ℚ
  age : Option Int
  gender : Option String
  height_cm : Option Int
deriving DecidableEq

/-- One formatted per-space search result, as built by
`search_face_embeddings` / `search_text_embeddings` (lines 123-134 and
167-178 of `vector_retrieval.py`). -/
structure SearchResult where
  pid : String
  score : ℚ
  age : Option Int
  gender : Option String
  height_cm : Option Int
  source : String
deriving DecidableEq

/-- One value of the `combined_scores` dict built by `combine_results`
(lines 287-315 of `vector_retrieval.py`). -/
structure CombinedEntry where
  pid : String
  face_score : ℚ
  text_score : ℚ
  age : Option Int
  gender : Option String
  height_cm : Option Int
deriving DecidableEq

/-- One fused output record of `combine_results`
(lines 318-329 of `vector_retrieval.py`). -/
structure ScoredCandidate where
  pid : String
  combined_score : ℚ
  face_score : ℚ
  text_score : ℚ
  age : Option Int
  gender : Option String
  height_cm : Option Int
deriving DecidableEq

/-! ## Score-fusion engine (`combine_results`, lines 260-335) -/

/-- `w1_norm = w1 / total_weight if total_weight > 0 else 0.5`
(line 283 of `vector_retrieval.py`). -/
def w1Norm (w1 w2 : ℚ) : ℚ :=
  if w1 + w2 > 0 then w1 / (w1 + w2) else 1/2

/-- `w2_norm = w2 / total_weight if total_weight > 0 else 0.5`
(line 284 of `vector_retrieval.py`). -/
def w2Norm (w1 w2 : ℚ) : ℚ :=
  if w1 + w2 > 0 then w2 / (w1 + w2) else 1/2

/-- The face-results pass of `combine_results` (lines 290-301): if the PID
is absent from the dict, insert a fresh entry with both scores `0` and the
display scalars of this result; then set its `face_score` to this
result's score. -/
def addFaceResult (m : List CombinedEntry) (r : SearchResult) :
    List CombinedEntry :=
  if m.any (fun e => e.pid == r.pid) then
    m.map (fun e => if e.pid == r.pid then { e with face_score := r.score } else e)
  else
    m ++ [{ pid := r.pid, face_score := r.score, text_score := 0,
            age := r.age, gender := r.gender, height_cm := r.height_cm }]

/-- The text-results pass of `combine_results` (lines 304-315): same as
`addFaceResult` but setting `text_score`. -/
def addTextResult (m : List CombinedEntry) (r : SearchResult) :
    List CombinedEntry :=
  if m.any (fun e => e.pid == r.pid) then
    m.map (fun e => if e.pid == r.pid then { e with text_score := r.score } else e)
  else
    m ++ [{ pid := r.pid, face_score := 0, text_score := r.score,
            age := r.age, gender := r.gender, height_cm := r.height_cm }]

/-- Stable descending insertion: `x` is placed before the first element
whose `combined_score` does not exceed it.  Models the stability of
Python `list.sort(..., reverse=True)` for the element arriving earlier. -/
def insertDesc (x : ScoredCandidate) : List ScoredCandidate → List ScoredCandidate
  | [] => [x]
  | y :: ys =>
    if y.combined_score ≤ x.combined_score then x :: y :: ys
    else y :: insertDesc x ys

/-- Stable sort by `combined_score`, descending — the model of
`final_results.sort(key=lambda x: x[combined_score], reverse=True)`
(line 332 of `vector_retrieval.py`). -/
def sortDesc : List ScoredCandidate → List ScoredCandidate
  | [] => []
  | x :: xs => insertDesc x (sortDesc xs)

/-- `VectorRetrieval.combine_results` (lines 260-335 of
`vector_retrieval.py`): normalize the weights, fold the face results and
then the text results into a PID-keyed accumulator, compute each PID's
weighted combined score, sort descending and truncate to `top_n`. -/
def combine_results (face_results text_results : List SearchResult)
    (w1 w2 : ℚ) (top_n : Nat) : List ScoredCandidate :=
  let w1n := w1Norm w1 w2
  let w2n := w2Norm w1 w2
  let m := text_results.foldl addTextResult (face_results.foldl addFaceResult [])
  let final := m.map (fun e =>
    { pid := e.pid,
      combined_score := w1n * e.face_score + w2n * e.text_score,
      face_score := e.face_score,
      text_score := e.text_score,
      age := e.age,
      gender := e.gender,
      height_cm := e.height_cm })
  (sortDesc final).take top_n

/-! ## Metadata filter builder (`create_metadata_filter`, lines 37-94) -/

/-- A Qdrant `Range` condition: optional inclusive bounds. -/
structure QRange where
  gte : Option Int
  lte : Option Int
deriving DecidableEq

/-- A Qdrant `FieldCondition`: exact value match or numeric range. -/
inductive FieldCondition where
  | matchValue (key : String) (value : String)
  | range (key : String) (r : QRange)
deriving DecidableEq

/-- A Qdrant `Filter` with AND-ed `must` conditions. -/
structure QFilter where
  must : List FieldCondition
deriving DecidableEq

/-- `VectorRetrieval.create_metadata_filter` (lines 37-94 of
`vector_retrieval.py`).  `if gender:` is Python truthiness (`""` adds no
clause); the age and height checks are explicit `is not None` tests.
Returns `none` when no condition was built. -/
def create_metadata_filter (gender : Option String)
    (age_min age_max height_min height_max : Option Int) : Option QFilter :=
  let genderConds : List FieldCondition :=
    if truthyStr gender then [.matchValue "gender" (gender.getD "")] else []
  let ageConds : List FieldCondition :=
    if age_min.isSome || age_max.isSome then [.range "age" ⟨age_min, age_max⟩] else []
  let heightConds : List FieldCondition :=
    if height_min.isSome || height_max.isSome then
      [.range "height_cm" ⟨height_min, height_max⟩] else []
  let must := genderConds ++ ageConds ++ heightConds
  if must.isEmpty then none else some ⟨must⟩

/-! ## Dual-space searcher and orchestrator (lines 96-412) -/

/-- The similarity-index client: an abstract `search` over a named
collection with a query vector, an optional filter and a limit.  A raised
exception of the underlying client is an `Except.error` result. -/
structure QdrantClient where
  search : String → List ℚ → Option QFilter → Nat → Except String (List RawHit)

/-- Formatting of one face-space hit (lines 125-132 of
`vector_retrieval.py`). -/
def formatFaceHit (r : RawHit) : SearchResult :=
  { pid := r.pid, score := r.score, age := r.age, gender := r.gender,
    height_cm := r.height_cm, source := "face" }

/-- Formatting of one text-space hit (lines 169-176 of
`vector_retrieval.py`). -/
def formatTextHit (r : RawHit) : SearchResult :=
  { pid := r.pid, score := r.score, age := r.age, gender := r.gender,
    height_cm := r.height_cm, source := "text" }

/-- `VectorRetrieval.search_face_embeddings` (lines 96-138): search the
`face_embeddings` collection and format the hits; any error is caught and
yields the empty list. -/
def search_face_embeddings (client : QdrantClient) (query_embedding : List ℚ)
    (limit : Nat) (metadata_filter : Option QFilter) : List SearchResult :=
  match client.search "face_embeddings" query_embedding metadata_filter limit with
  | .ok results => results.map formatFaceHit
  | .error _ => []

/-- `VectorRetrieval.search_text_embeddings` (lines 140-182): search the
`text_embeddings` collection and format the hits; any error is caught and
yields the empty list. -/
def search_text_embeddings (client : QdrantClient) (query_embedding : List ℚ)
    (limit : Nat) (metadata_filter : Option QFilter) : List SearchResult :=
  match client.search "text_embeddings" query_embedding metadata_filter limit with
  | .ok results => results.map formatTextHit
  | .error _ => []

/-- `VectorRetrieval.parallel_search` (lines 184-258): build the metadata
filter from the scalar constraints, run the per-space searches for the
supplied embeddings (both with the same filter), and return the pair of
result lists.  A space with no query vector yields `[]`.  The thread-pool
concurrency of the source has no observable effect on the returned pair,
so the two searches are modelled sequentially. -/
def parallel_search (client : QdrantClient)
    (face_embedding text_embedding : Option (List ℚ)) (limit : Nat)
    (gender : Option String) (age_min age_max height_min height_max : Option Int) :
    List SearchResult × List SearchResult :=
  let metadata_filter :=
    create_metadata_filter gender age_min age_max height_min height_max
  let face_results := match face_embedding with
    | some e => search_face_embeddings client e limit metadata_filter
    | none => []
  let text_results := match text_embedding with
    | some e => search_text_embeddings client e limit metadata_filter
    | none => []
  (face_results, text_results)

/-- `VectorRetrieval.search_and_combine` (lines 337-412): validate that at
least one embedding is supplied (otherwise `ValueError`), then run
`parallel_search` — passing `None` for every scalar constraint, as the
source does at lines 386-395 (its docstring marks the constraint
parameters `NOT USED` and it prints `Metadata Filters: DISABLED`) — and
fuse the two result lists with `combine_results`. -/
def search_and_combine (client : QdrantClient)
    (face_embedding text_embedding : Option (List ℚ))
    (gender : Option String) (age_min age_max height_min height_max : Option Int)
    (w1 w2 : ℚ) (top_n limit_per_collection : Nat) :
    Except String (List ScoredCandidate) :=
  if face_embedding.isNone && text_embedding.isNone then
    .error "At least one embedding (face or text) must be provided"
  else
    let res := parallel_search client face_embedding text_embedding
      limit_per_collection none none none none none
    .ok (combine_results res.1 res.2 w1 w2 top_n)

/-! ## Physical-attribute comparator
(`compare_physical_attributes`, `face_recognition_integration.py`,
lines 207-249) -/

/-- A missing-person record as read by the comparator. -/
structure MPRecord where
  age : Option Int
  gender : Option String
  height_cm : Option Int
  hair_color : Option String
  eye_color : Option String
deriving DecidableEq

/-- An unidentified-body record as read by the comparator. -/
structure UIDBRecord where
  estimated_age : Option Int
  gender : Option String
  height_cm : Option Int
  hair_color : Option String
  eye_color : Option String
deriving DecidableEq

/-- The comparator's output: one optional flag per field pair (present
exactly when both sides are truthy), the absolute differences, and the
overall percentage. -/
structure AttributeScores where
  age_match : Option Bool
  age_difference : Option Nat
  gender_match : Option Bool
  height_match : Option Bool
  height_difference : Option Nat
  hair_color_match : Option Bool
  eye_color_match : Option Bool
  overall_match_percentage : ℚ
deriving DecidableEq

/-- Numeric pair comparison: when both sides are truthy, the flag is
`|a - b| <= 5` (the shared age/height policy of lines 220-234). -/
def intPairMatch (a b : Option Int) : Option Bool :=
  if truthyInt a && truthyInt b then
    some (decide ((a.getD 0 - b.getD 0).natAbs ≤ 5))
  else none

/-- Numeric pair absolute difference, present when both sides are truthy. -/
def intPairDiff (a b : Option Int) : Option Nat :=
  if truthyInt a && truthyInt b then some ((a.getD 0 - b.getD 0).natAbs)
  else none

/-- Case-sensitive string pair equality (the gender comparison of
line 228: `mp_record[gender] == uidb_record[gender]`, no `.lower()`). -/
def strPairEq (a b : Option String) : Option Bool :=
  if truthyStr a && truthyStr b then some (a.getD "" == b.getD "") else none

/-- Python `str.lower()`, modelled character-wise (ASCII case folding,
which is all the repository data uses). -/
def pyLower (s : String) : String :=
  ⟨s.data.map Char.toLower⟩

/-- Case-insensitive string pair equality (the hair/eye comparisons of
lines 238 and 242, which lowercase both sides). -/
def strPairEqCI (a b : Option String) : Option Bool :=
  if truthyStr a && truthyStr b then
    some (pyLower (a.getD "") == pyLower (b.getD ""))
  else none

/-- The overall percentage of lines 245-247: `matches / total * 100` when
at least one flag was evaluated, else `0`. -/
def overallPct (flags : List (Option Bool)) : ℚ :=
  let numMatches := flags.countP (· == some true)
  let numTotal := flags.countP (fun f => f.isSome)
  if numTotal > 0 then (numMatches : ℚ) / (numTotal : ℚ) * 100 else 0

/-- `FaceRecognitionMatcher.compare_physical_attributes` (lines 207-249 of
`face_recognition_integration.py`).  Each `_match` key exists exactly when
both sides of its field pair are Python-truthy; the overall percentage
counts the `_match` keys. -/
def compare_physical_attributes (mp : MPRecord) (u : UIDBRecord) :
    AttributeScores :=
  let am := intPairMatch mp.age u.estimated_age
  let ad := intPairDiff mp.age u.estimated_age
  let gm := strPairEq mp.gender u.gender
  let hm := intPairMatch mp.height_cm u.height_cm
  let hd := intPairDiff mp.height_cm u.height_cm
  let hc := strPairEqCI mp.hair_color u.hair_color
  let ec := strPairEqCI mp.eye_color u.eye_color
  { age_match := am, age_difference := ad, gender_match := gm,
    height_match := hm, height_difference := hd,
    hair_color_match := hc, eye_color_match := ec,
    overall_match_percentage := overallPct [am, gm, hm, hc, ec] }

/-- The five `_match` flags of a comparator output, in dict insertion
order. -/
def matchFlags (s : AttributeScores) : List (Option Bool) :=
  [s.age_match, s.gender_match, s.height_match,
   s.hair_color_match, s.eye_color_match]

/-! ## Helper lemmas on the fusion accumulator -/

/-- The PIDs of a combined-scores accumulator. -/
def entryPids (m : List CombinedEntry) : List String :=
  m.map CombinedEntry.pid

theorem any_pid_iff (m : List CombinedEntry) (q : String) :
    (m.any fun e => e.pid == q) = true ↔ q ∈ entryPids m := by
  simp [List.any_eq_true, entryPids, List.mem_map]

theorem entryPids_addFaceResult (m : List CombinedEntry) (r : SearchResult) :
    entryPids (addFaceResult m r) =
      if r.pid ∈ entryPids m then entryPids m else entryPids m ++ [r.pid] := by
  unfold addFaceResult
  by_cases h : (m.any fun e => e.pid == r.pid) = true
  · rw [if_pos h, if_pos ((any_pid_iff m r.pid).mp h)]
    unfold entryPids
    rw [List.map_map]
    apply List.map_congr_left
    intro e _
    by_cases hb : (e.pid == r.pid) = true <;> simp [Function.comp, hb]
  · rw [if_neg h, if_neg (fun hc => h ((any_pid_iff m r.pid).mpr hc))]
    simp [entryPids]

theorem entryPids_addTextResult (m : List CombinedEntry) (r : SearchResult) :
    entryPids (addTextResult m r) =
      if r.pid ∈ entryPids m then entryPids m else entryPids m ++ [r.pid] := by
  unfold addTextResult
  by_cases h : (m.any fun e => e.pid == r.pid) = true
  · rw [if_pos h, if_pos ((any_pid_iff m r.pid).mp h)]
    unfold entryPids
    rw [List.map_map]
    apply List.map_congr_left
    intro e _
    by_cases hb : (e.pid == r.pid) = true <;> simp [Function.comp, hb]
  · rw [if_neg h, if_neg (fun hc => h ((any_pid_iff m r.pid).mpr hc))]
    simp [entryPids]

theorem entryPids_foldl_addFaceResult (l : List SearchResult) :
    ∀ (m : List CombinedEntry) (p : String),
      p ∈ entryPids (l.foldl addFaceResult m) ↔
        p ∈ entryPids m ∨ p ∈ l.map SearchResult.pid := by
  induction l with
  | nil => intro m p; simp
  | cons r l ih =>
    intro m p
    rw [List.foldl_cons, ih, entryPids_addFaceResult]
    by_cases h : r.pid ∈ entryPids m
    · rw [if_pos h]
      have hpr : p = r.pid → p ∈ entryPids m := fun he => he ▸ h
      simp only [List.map_cons, List.mem_cons]
      tauto
    · rw [if_neg h]
      simp only [List.mem_append, List.map_cons, List.mem_cons,
        List.mem_singleton]
      tauto

theorem entryPids_foldl_addTextResult (l : List SearchResult) :
    ∀ (m : List CombinedEntry) (p : String),
      p ∈ entryPids (l.foldl addTextResult m) ↔
        p ∈ entryPids m ∨ p ∈ l.map SearchResult.pid := by
  induction l with
  | nil => intro m p; simp
  | cons r l ih =>
    intro m p
    rw [List.foldl_cons, ih, entryPids_addTextResult]
    by_cases h : r.pid ∈ entryPids m
    · rw [if_pos h]
      have hpr : p = r.pid → p ∈ entryPids m := fun he => he ▸ h
      simp only [List.map_cons, List.mem_cons]
      tauto
    · rw [if_neg h]
      simp only [List.mem_append, List.map_cons, List.mem_cons,
        List.mem_singleton]
      tauto

theorem entryPids_nodup_addFaceResult (m : List CombinedEntry) (r : SearchResult)
    (h : (entryPids m).Nodup) : (entryPids (addFaceResult m r)).Nodup := by
  rw [entryPids_addFaceResult]
  by_cases hm : r.pid ∈ entryPids m
  · rwa [if_pos hm]
  · rw [if_neg hm]
    simp [List.nodup_append, h, hm]

theorem entryPids_nodup_addTextResult (m : List CombinedEntry) (r : SearchResult)
    (h : (entryPids m).Nodup) : (entryPids (addTextResult m r)).Nodup := by
  rw [entryPids_addTextResult]
  by_cases hm : r.pid ∈ entryPids m
  · rwa [if_pos hm]
  · rw [if_neg hm]
    simp [List.nodup_append, h, hm]

theorem entryPids_nodup_foldl_addFaceResult (l : List SearchResult) :
    ∀ m : List CombinedEntry, (entryPids m).Nodup →
      (entryPids (l.foldl addFaceResult m)).Nodup := by
  induction l with
  | nil => intro m h; simpa using h
  | cons r l ih =>
    intro m h
    rw [List.foldl_cons]
    exact ih _ (entryPids_nodup_addFaceResult m r h)

theorem entryPids_nodup_foldl_addTextResult (l : List SearchResult) :
    ∀ m : List CombinedEntry, (entryPids m).Nodup →
      (entryPids (l.foldl addTextResult m)).Nodup := by
  induction l with
  | nil => intro m h; simpa using h
  | cons r l ih =>
    intro m h
    rw [List.foldl_cons]
    exact ih _ (entryPids_nodup_addTextResult m r h)

theorem mem_addFaceResult_pid (m : List CombinedEntry) (r : SearchResult)
    (e : CombinedEntry) (he : e ∈ addFaceResult m r) :
    (∃ e0 ∈ m, e.pid = e0.pid ∧ e.text_score = e0.text_score) ∨
      (e.pid = r.pid ∧ e.text_score = 0) := by
  unfold addFaceResult at he
  by_cases h : (m.any fun e => e.pid == r.pid) = true
  · rw [if_pos h] at he
    rcases List.mem_map.mp he with ⟨e0, he0, rfl⟩
    by_cases hb : (e0.pid == r.pid) = true <;> simp only [hb, if_true, if_false,
      Bool.false_eq_true] <;> exact Or.inl ⟨e0, he0, rfl, rfl⟩
  · rw [if_neg h] at he
    rcases List.mem_append.mp he with h1 | h1
    · exact Or.inl ⟨e, h1, rfl, rfl⟩
    · rw [List.mem_singleton] at h1
      subst h1
      exact Or.inr ⟨rfl, rfl⟩

theorem mem_addTextResult_face (m : List CombinedEntry) (r : SearchResult)
    (e : CombinedEntry) (he : e ∈ addTextResult m r) :
    (∃ e0 ∈ m, e.pid = e0.pid ∧ e.face_score = e0.face_score) ∨
      (e.pid = r.pid ∧ e.face_score = 0) := by
  unfold addTextResult at he
  by_cases h : (m.any fun e => e.pid == r.pid) = true
  · rw [if_pos h] at he
    rcases List.mem_map.mp he with ⟨e0, he0, rfl⟩
    by_cases hb : (e0.pid == r.pid) = true <;> simp only [hb, if_true, if_false,
      Bool.false_eq_true] <;> exact Or.inl ⟨e0, he0, rfl, rfl⟩
  · rw [if_neg h] at he
    rcases List.mem_append.mp he with h1 | h1
    · exact Or.inl ⟨e, h1, rfl, rfl⟩
    · rw [List.mem_singleton] at h1
      subst h1
      exact Or.inr ⟨rfl, rfl⟩

theorem mem_addTextResult_text (m : List CombinedEntry) (r : SearchResult)
    (e : CombinedEntry) (he : e ∈ addTextResult m r) :
    (∃ e0 ∈ m, e.pid = e0.pid ∧ e.text_score = e0.text_score) ∨ e.pid = r.pid := by
  unfold addTextResult at he
  by_cases h : (m.any fun e => e.pid == r.pid) = true
  · rw [if_pos h] at he
    rcases List.mem_map.mp he with ⟨e0, he0, rfl⟩
    by_cases hb : (e0.pid == r.pid) = true
    · simp only [hb, if_true]
      exact Or.inr (beq_iff_eq.mp hb)
    · simp only [hb, if_false, Bool.false_eq_true]
      exact Or.inl ⟨e0, he0, rfl, rfl⟩
  · rw [if_neg h] at he
    rcases List.mem_append.mp he with h1 | h1
    · exact Or.inl ⟨e, h1, rfl, rfl⟩
    · rw [List.mem_singleton] at h1
      subst h1
      exact Or.inr rfl

/-- After the face pass, every accumulator entry has `text_score = 0`
(only the text pass ever writes `text_score`). -/
theorem foldl_addFaceResult_text_zero (l : List SearchResult) :
    ∀ m : List CombinedEntry, (∀ e ∈ m, e.text_score = 0) →
      ∀ e ∈ l.foldl addFaceResult m, e.text_score = 0 := by
  induction l with
  | nil => intro m h; simpa using h
  | cons r l ih =>
    intro m h
    rw [List.foldl_cons]
    refine ih _ ?_
    intro e he
    rcases mem_addFaceResult_pid m r e he with ⟨e0, he0, _, ht⟩ | ⟨_, ht⟩ <;>
      rw [ht]
    exact h e0 he0

/-- The text pass never changes `face_score` of an entry whose PID is not
updated, and new entries get `face_score = 0`: any entry whose PID is
outside the text list keeps the `face_score` it had. -/
theorem foldl_addTextResult_face_zero (l : List SearchResult) (F : List String) :
    ∀ m : List CombinedEntry, (∀ e ∈ m, e.pid ∉ F → e.face_score = 0) →
      ∀ e ∈ l.foldl addTextResult m, e.pid ∉ F → e.face_score = 0 := by
  induction l with
  | nil => intro m h; simpa using h
  | cons r l ih =>
    intro m h
    rw [List.foldl_cons]
    refine ih _ ?_
    intro e he hout
    rcases mem_addTextResult_face m r e he with ⟨e0, he0, hp, hf⟩ | ⟨_, hf⟩
    · rw [hf]
      exact h e0 he0 (hp ▸ hout)
    · exact hf

/-- Every entry after the text pass whose PID is outside the text list
keeps the `text_score` it had before the pass (in particular `0` when the
pass started from the face pass). -/
theorem foldl_addTextResult_text_zero (l : List SearchResult) (T : List String)
    (hT : ∀ r ∈ l, r.pid ∈ T) :
    ∀ m : List CombinedEntry, (∀ e ∈ m, e.pid ∉ T → e.text_score = 0) →
      ∀ e ∈ l.foldl addTextResult m, e.pid ∉ T → e.text_score = 0 := by
  induction l with
  | nil => intro m h; simpa using h
  | cons r l ih =>
    intro m h
    rw [List.foldl_cons]
    refine ih (fun s hs => hT s (List.mem_cons_of_mem r hs)) _ ?_
    intro e he hout
    rcases mem_addTextResult_text m r e he with ⟨e0, he0, hp, ht⟩ | hp
    · rw [ht]
      exact h e0 he0 (hp ▸ hout)
    · exact absurd (hp ▸ hT r (List.mem_cons_self r l)) hout

/-- Every entry produced by the face pass from the empty accumulator has
its PID in the face list. -/
theorem foldl_addFaceResult_pid_mem (l : List SearchResult)
    (e : CombinedEntry) (he : e ∈ l.foldl addFaceResult []) :
    e.pid ∈ l.map SearchResult.pid :=
  ((entryPids_foldl_addFaceResult l [] e.pid).mp
    (List.mem_map_of_mem CombinedEntry.pid he)).resolve_left (by simp [entryPids])

theorem insertDesc_perm (x : ScoredCandidate) (l : List ScoredCandidate) :
    List.Perm (insertDesc x l) (x :: l) := by
  induction l with
  | nil => simp [insertDesc]
  | cons y ys ih =>
    unfold insertDesc
    by_cases h : y.combined_score ≤ x.combined_score
    · rw [if_pos h]
    · rw [if_neg h]
      exact (ih.cons y).trans (List.Perm.swap x y ys)

theorem sortDesc_perm (l : List ScoredCandidate) : List.Perm (sortDesc l) l := by
  induction l with
  | nil => simp [sortDesc]
  | cons x xs ih =>
    unfold sortDesc
    exact (insertDesc_perm x (sortDesc xs)).trans (ih.cons x)

theorem entryPids_nil : entryPids [] = [] := rfl

/-- Unfolding of `combine_results` into its accumulator, scoring map,
sort and truncation. -/
theorem combine_results_eq (f t : List SearchResult) (w1 w2 : ℚ) (n : Nat) :
    combine_results f t w1 w2 n =
      (sortDesc ((t.foldl addTextResult (f.foldl addFaceResult [])).map
        (fun e => ⟨e.pid,
          w1Norm w1 w2 * e.face_score + w2Norm w1 w2 * e.text_score,
          e.face_score, e.text_score, e.age, e.gender, e.height_cm⟩))).take n := rfl

/-- C1: with a large enough `top_n`, the PIDs of the fused output are
exactly the union of the PIDs of the face list and the text list, and a
PID absent from one list gets score `0` for that dimension while still
appearing. -/
theorem combine_results_union_of_top_n_ge
    (face_results text_results : List SearchResult) (w1 w2 : ℚ) (top_n : Nat)
    (h : (face_results.map SearchResult.pid ++
          text_results.map SearchResult.pid).toFinset.card ≤ top_n) :
    (∀ p, p ∈ (combine_results face_results text_results w1 w2 top_n).map
            ScoredCandidate.pid ↔
          p ∈ face_results.map SearchResult.pid ∨
          p ∈ text_results.map SearchResult.pid) ∧
    (∀ r ∈ combine_results face_results text_results w1 w2 top_n,
        (r.pid ∉ face_results.map SearchResult.pid → r.face_score = 0) ∧
        (r.pid ∉ text_results.map SearchResult.pid → r.text_score = 0)) := by
  rw [combine_results_eq]
  set m := text_results.foldl addTextResult (face_results.foldl addFaceResult [])
    with hmdef
  set final := m.map (fun e => (⟨e.pid,
    w1Norm w1 w2 * e.face_score + w2Norm w1 w2 * e.text_score,
    e.face_score, e.text_score, e.age, e.gender, e.height_cm⟩ : ScoredCandidate))
    with hfinaldef
  have hm0text : ∀ e ∈ face_results.foldl addFaceResult [], e.text_score = 0 :=
    foldl_addFaceResult_text_zero face_results [] (by simp)
  have hface0 : ∀ e ∈ m, e.pid ∉ face_results.map SearchResult.pid →
      e.face_score = 0 :=
    foldl_addTextResult_face_zero text_results
      (face_results.map SearchResult.pid) (face_results.foldl addFaceResult [])
      (fun e he hout => absurd (foldl_addFaceResult_pid_mem face_results e he) hout)
  have htext0 : ∀ e ∈ m, e.pid ∉ text_results.map SearchResult.pid →
      e.text_score = 0 :=
    foldl_addTextResult_text_zero text_results
      (text_results.map SearchResult.pid)
      (fun r hr => List.mem_map_of_mem SearchResult.pid hr)
      (face_results.foldl addFaceResult [])
      (fun e he _ => hm0text e he)
  have hmem : ∀ p, p ∈ entryPids m ↔
      p ∈ face_results.map SearchResult.pid ∨
      p ∈ text_results.map SearchResult.pid := by
    intro p
    rw [hmdef, entryPids_foldl_addTextResult, entryPids_foldl_addFaceResult,
      entryPids_nil]
    simp only [List.not_mem_nil, false_or]
  have hnd : (entryPids m).Nodup :=
    entryPids_nodup_foldl_addTextResult text_results _
      (entryPids_nodup_foldl_addFaceResult face_results []
        (by simp [entryPids_nil]))
  have hlen : (sortDesc final).length = (entryPids m).length := by
    rw [(sortDesc_perm final).length_eq, hfinaldef, List.length_map, entryPids,
      List.length_map]
  have hcard : (entryPids m).length =
      (face_results.map SearchResult.pid ++
        text_results.map SearchResult.pid).toFinset.card := by
    rw [← List.toFinset_card_of_nodup hnd]
    congr 1
    apply Finset.ext
    intro p
    simp only [List.mem_toFinset, List.mem_append]
    exact hmem p
  have htake : (sortDesc final).take top_n = sortDesc final :=
    List.take_of_length_le (by rw [hlen, hcard]; exact h)
  rw [htake]
  constructor
  · intro p
    constructor
    · intro hp
      rcases List.mem_map.mp hp with ⟨r, hr, rfl⟩
      have hr2 : r ∈ final := ((sortDesc_perm final).mem_iff).mp hr
      rw [hfinaldef] at hr2
      rcases List.mem_map.mp hr2 with ⟨e, he, rfl⟩
      exact (hmem _).mp (List.mem_map_of_mem CombinedEntry.pid he)
    · intro hp
      rcases List.mem_map.mp ((hmem p).mpr hp) with ⟨e, he, rfl⟩
      refine List.mem_map.mpr ⟨⟨e.pid,
        w1Norm w1 w2 * e.face_score + w2Norm w1 w2 * e.text_score,
        e.face_score, e.text_score, e.age, e.gender, e.height_cm⟩,
        ((sortDesc_perm final).mem_iff).mpr ?_, rfl⟩
      rw [hfinaldef]
      exact List.mem_map_of_mem _ he
  · intro r hr
    have hr2 : r ∈ final := ((sortDesc_perm final).mem_iff).mp hr
    rw [hfinaldef] at hr2
    rcases List.mem_map.mp hr2 with ⟨e, he, rfl⟩
    exact ⟨fun hout => hface0 e he hout, fun hout => htext0 e he hout⟩

/-- Witness for C1 at a concrete input: face list `[P1]`, text list `[P2]`,
`top_n = 5` covers the union of size 2. -/
theorem combine_results_union_of_top_n_ge_witness :
    (([⟨"P1", 9/10, none, none, none, "face"⟩] :
        List SearchResult).map SearchResult.pid ++
      ([⟨"P2", 8/10, none, none, none, "text"⟩] :
        List SearchResult).map SearchResult.pid).toFinset.card ≤ 5 ∧
    ("P2" ∈ (combine_results [⟨"P1", 9/10, none, none, none, "face"⟩]
        [⟨"P2", 8/10, none, none, none, "text"⟩] 1 1 5).map ScoredCandidate.pid ↔
      "P2" ∈ ([⟨"P1", 9/10, none, none, none, "face"⟩] :
        List SearchResult).map SearchResult.pid ∨
      "P2" ∈ ([⟨"P2", 8/10, none, none, none, "text"⟩] :
        List SearchResult).map SearchResult.pid) :=
  ⟨by simp, (combine_results_union_of_top_n_ge
      [⟨"P1", 9/10, none, none, none, "face"⟩]
      [⟨"P2", 8/10, none, none, none, "text"⟩] 1 1 5 (by simp)).1 "P2"⟩

/-- C3: the boundary scenario — face `[(P1, 0.9), (P2, 0.7)]`, text
`[(P2, 0.8), (P3, 0.6)]`, weights `0.6 / 0.4`, `top_n = 3` — fuses to
`[P2 at 0.74, P1 at 0.54, P3 at 0.24]`. -/
theorem combine_results_boundary_scenario :
    combine_results
      [⟨"P1", 9/10, none, none, none, "face"⟩,
       ⟨"P2", 7/10, none, none, none, "face"⟩]
      [⟨"P2", 8/10, none, none, none, "text"⟩,
       ⟨"P3", 6/10, none, none, none, "text"⟩]
      (6/10) (4/10) 3 =
    [⟨"P2", 74/100, 7/10, 8/10, none, none, none⟩,
     ⟨"P1", 54/100, 9/10, 0, none, none, none⟩,
     ⟨"P3", 24/100, 0, 6/10, none, none, none⟩] := by
  simp [combine_results, addFaceResult, addTextResult, sortDesc, insertDesc,
    w1Norm, w2Norm]
  norm_num [insertDesc]

/-- C4: fusing with raw weights equals fusing with the pre-normalized
weights: `w / (w1 + w2)` for each when `w1 + w2 > 0`, and `0.5` for both
otherwise.  In particular at `w1 = w2 = 0` the right-hand weights are
`(0.5, 0.5)`, so zero-weight fusion coincides with equal fusion. -/
theorem combine_results_weight_normalization
    (f t : List SearchResult) (w1 w2 : ℚ) (n : Nat) :
    combine_results f t w1 w2 n =
      combine_results f t (if w1 + w2 > 0 then w1 / (w1 + w2) else 1/2)
        (if w1 + w2 > 0 then w2 / (w1 + w2) else 1/2) n ∧
    combine_results f t 0 0 n = combine_results f t (1/2) (1/2) n := by
  have hnorm : ∀ a b : ℚ,
      w1Norm (if a + b > 0 then a / (a + b) else 1/2)
        (if a + b > 0 then b / (a + b) else 1/2) = w1Norm a b ∧
      w2Norm (if a + b > 0 then a / (a + b) else 1/2)
        (if a + b > 0 then b / (a + b) else 1/2) = w2Norm a b := by
    intro a b
    unfold w1Norm w2Norm
    by_cases h : a + b > 0
    · have hne : a + b ≠ 0 := ne_of_gt h
      have hsum : a / (a + b) + b / (a + b) = 1 := by
        field_simp
      simp only [if_pos h, hsum, if_pos one_pos, div_one]
      exact ⟨trivial, trivial⟩
    · have hsum : (1 : ℚ)/2 + 1/2 = 1 := by norm_num
      simp only [if_neg h, hsum, if_pos one_pos, div_one]
      exact ⟨trivial, trivial⟩
  have hcongr : ∀ a b c d : ℚ, w1Norm a b = w1Norm c d → w2Norm a b = w2Norm c d →
      combine_results f t a b n = combine_results f t c d n := by
    intro a b c d h1 h2
    rw [combine_results_eq, combine_results_eq, h1, h2]
  constructor
  · exact (hcongr _ _ _ _ (hnorm w1 w2).1.symm (hnorm w1 w2).2.symm)
  · have h0 : w1Norm 0 0 = w1Norm (1/2) (1/2) := by
      unfold w1Norm
      norm_num
    have h0b : w2Norm 0 0 = w2Norm (1/2) (1/2) := by
      unfold w2Norm
      norm_num
    exact hcongr _ _ _ _ h0 h0b

/-- C5: scaling both fusion weights by the same positive constant leaves
the whole fused output (scores, order, truncation) unchanged. -/
theorem combine_results_scale_invariance
    (f t : List SearchResult) (w1 w2 c : ℚ) (n : Nat)
    (h1 : 0 ≤ w1) (h2 : 0 ≤ w2) (hsum : 0 < w1 + w2) (hc : 0 < c) :
    combine_results f t (c * w1) (c * w2) n = combine_results f t w1 w2 n := by
  have hmul : c * w1 + c * w2 = c * (w1 + w2) := by ring
  have hpos : 0 < c * (w1 + w2) := mul_pos hc hsum
  have e1 : w1Norm (c * w1) (c * w2) = w1Norm w1 w2 := by
    unfold w1Norm
    rw [hmul, if_pos hpos, if_pos hsum, mul_div_mul_left _ _ (ne_of_gt hc)]
  have e2 : w2Norm (c * w1) (c * w2) = w2Norm w1 w2 := by
    unfold w2Norm
    rw [hmul, if_pos hpos, if_pos hsum, mul_div_mul_left _ _ (ne_of_gt hc)]
  rw [combine_results_eq, combine_results_eq, e1, e2]

/-- Witness for C5 at concrete weights `(3, 1)`, constant `c = 2` and a
one-element face list. -/
theorem combine_results_scale_invariance_witness :
    (0 : ℚ) ≤ 3 ∧ (0 : ℚ) ≤ 1 ∧ (0 : ℚ) < 3 + 1 ∧ (0 : ℚ) < 2 ∧
    combine_results [⟨"P1", 9/10, none, none, none, "face"⟩] [] (2 * 3) (2 * 1) 2 =
      combine_results [⟨"P1", 9/10, none, none, none, "face"⟩] [] 3 1 2 :=
  ⟨by norm_num, by norm_num, by norm_num, by norm_num,
    combine_results_scale_invariance [⟨"P1", 9/10, none, none, none, "face"⟩] []
      3 1 2 2 (by norm_num) (by norm_num) (by norm_num) (by norm_num)⟩

/-- C6: with both embeddings absent, `search_and_combine` fails with the
`ValueError` message of line 376 — for every client, so no similarity
search can influence (or be performed for) the outcome, and no partial
result is produced. -/
theorem search_and_combine_invalid_query (client : QdrantClient)
    (gender : Option String) (age_min age_max height_min height_max : Option Int)
    (w1 w2 : ℚ) (top_n limit_per_collection : Nat) :
    search_and_combine client none none gender age_min age_max height_min
        height_max w1 w2 top_n limit_per_collection =
      Except.error "At least one embedding (face or text) must be provided" := rfl

/-- C2 (amended): `search_and_combine` ignores the scalar constraints —
it always invokes the per-space searches with filter `none`
(lines 384-395 pass `None` for every constraint, and
`create_metadata_filter` of five `None`s is no filter). -/
theorem search_and_combine_searches_unfiltered (client : QdrantClient)
    (face_embedding text_embedding : Option (List ℚ))
    (gender : Option String) (age_min age_max height_min height_max : Option Int)
    (w1 w2 : ℚ) (top_n limit_per_collection : Nat) :
    search_and_combine client face_embedding text_embedding gender age_min
        age_max height_min height_max w1 w2 top_n limit_per_collection =
      if face_embedding.isNone && text_embedding.isNone then
        Except.error "At least one embedding (face or text) must be provided"
      else
        Except.ok (combine_results
          (match face_embedding with
            | some q => search_face_embeddings client q limit_per_collection none
            | none => [])
          (match text_embedding with
            | some q => search_text_embeddings client q limit_per_collection none
            | none => [])
          w1 w2 top_n) := rfl

/-- A similarity-index stub that distinguishes filtered from unfiltered
searches: it returns one hit (PID `UNFILTERED`) when called with no
filter and nothing when called with any filter. -/
def filterProbeClient : QdrantClient :=
  ⟨fun _ _ filt _ =>
    match filt with
    | none => .ok [⟨"UNFILTERED", 1, none, none, none⟩]
    | some _ => .ok []⟩

/-- C2 (counterexample): with gender/age constraints supplied, the
orchestrator still returns the hit that only an unfiltered search can
produce, while a search issued with the filter actually built from those
constraints would return nothing — so the constraints do not restrict the
candidates. -/
theorem search_and_combine_filter_not_applied :
    search_and_combine filterProbeClient (some [1]) none (some "Male")
        (some 20) (some 30) none none 1 1 5 50 =
      Except.ok [⟨"UNFILTERED", 1/2 * 1 + 1/2 * 0, 1, 0, none, none, none⟩] ∧
    search_face_embeddings filterProbeClient [1] 50
      (create_metadata_filter (some "Male") (some 20) (some 30) none none) = [] := by
  constructor
  · simp [search_and_combine, parallel_search, search_face_embeddings,
      filterProbeClient, create_metadata_filter, combine_results, addFaceResult,
      addTextResult, sortDesc, insertDesc, w1Norm, w2Norm, formatFaceHit]
    norm_num
  · rfl

/-- C7: in any retrieval call where one per-space search raises while the
other succeeds, the failing space degrades to `[]`, the succeeding
space's results are returned unchanged, and the call completes with
`.ok` — stated for both directions (face failing, text failing) with
arbitrary successful results; and in particular, with a failing face
search and text results `[(P1, 0.5)]`, the single fused candidate
carries a combined score equal to the normalized text weight times
`0.5`. -/
theorem retrieval_degrades_failed_space (client : QdrantClient)
    (qf qt : List ℚ) (gender : Option String)
    (age_min age_max height_min height_max : Option Int)
    (w1 w2 : ℚ) (top_n limit : Nat) (msg : String) (hits : List RawHit) :
    ((∀ filt, client.search "face_embeddings" qf filt limit =
        Except.error msg) →
     (∀ filt, client.search "text_embeddings" qt filt limit =
        Except.ok hits) →
      parallel_search client (some qf) (some qt) limit gender age_min age_max
          height_min height_max = ([], hits.map formatTextHit) ∧
      search_and_combine client (some qf) (some qt) gender age_min age_max
          height_min height_max w1 w2 top_n limit =
        Except.ok (combine_results [] (hits.map formatTextHit) w1 w2 top_n)) ∧
    ((∀ filt, client.search "face_embeddings" qf filt limit =
        Except.ok hits) →
     (∀ filt, client.search "text_embeddings" qt filt limit =
        Except.error msg) →
      parallel_search client (some qf) (some qt) limit gender age_min age_max
          height_min height_max = (hits.map formatFaceHit, []) ∧
      search_and_combine client (some qf) (some qt) gender age_min age_max
          height_min height_max w1 w2 top_n limit =
        Except.ok (combine_results (hits.map formatFaceHit) [] w1 w2 top_n)) ∧
    ((∀ filt, client.search "face_embeddings" qf filt limit =
        Except.error msg) →
     (∀ filt, client.search "text_embeddings" qt filt limit =
        Except.ok [⟨"P1", 1/2, none, none, none⟩]) →
     1 ≤ top_n →
      search_and_combine client (some qf) (some qt) gender age_min age_max
          height_min height_max w1 w2 top_n limit =
        Except.ok [⟨"P1", w2Norm w1 w2 * (1/2), 0, 1/2, none, none, none⟩]) := by
  refine ⟨fun hface htext => ?_, fun hface htext => ?_,
    fun hface htext hn => ?_⟩
  · have hps : ∀ g a1 a2 hm hx,
        parallel_search client (some qf) (some qt) limit g a1 a2 hm hx =
          ([], hits.map formatTextHit) := by
      intro g a1 a2 hm hx
      simp only [parallel_search, search_face_embeddings,
        search_text_embeddings, hface, htext]
    refine ⟨hps gender age_min age_max height_min height_max, ?_⟩
    unfold search_and_combine
    rw [hps none none none none none]
    rfl
  · have hps : ∀ g a1 a2 hm hx,
        parallel_search client (some qf) (some qt) limit g a1 a2 hm hx =
          (hits.map formatFaceHit, []) := by
      intro g a1 a2 hm hx
      simp only [parallel_search, search_face_embeddings,
        search_text_embeddings, hface, htext]
    refine ⟨hps gender age_min age_max height_min height_max, ?_⟩
    unfold search_and_combine
    rw [hps none none none none none]
    rfl
  · have hps : ∀ g a1 a2 hm hx,
        parallel_search client (some qf) (some qt) limit g a1 a2 hm hx =
          ([], ([⟨"P1", 1/2, none, none, none⟩] : List RawHit).map
            formatTextHit) := by
      intro g a1 a2 hm hx
      simp only [parallel_search, search_face_embeddings,
        search_text_embeddings, hface, htext]
    have hsc : search_and_combine client (some qf) (some qt) gender age_min
        age_max height_min height_max w1 w2 top_n limit =
        Except.ok (combine_results []
          (([⟨"P1", 1/2, none, none, none⟩] : List RawHit).map formatTextHit)
          w1 w2 top_n) := by
      unfold search_and_combine
      rw [hps none none none none none]
      rfl
    rw [hsc]
    have hcomb : combine_results []
        (([⟨"P1", 1/2, none, none, none⟩] : List RawHit).map formatTextHit)
        w1 w2 top_n =
        [⟨"P1", w2Norm w1 w2 * (1/2), 0, 1/2, none, none, none⟩] := by
      rw [combine_results_eq]
      show ([(⟨"P1", w1Norm w1 w2 * 0 + w2Norm w1 w2 * (1/2), 0, 1/2,
        none, none, none⟩ : ScoredCandidate)]).take top_n = _
      rw [List.take_of_length_le (by simpa using hn)]
      simp [mul_zero, zero_add]
    rw [hcomb]

/-- A similarity-index stub whose face-space search always fails with a
connection error while its text-space search returns `[(P1, 0.5)]`. -/
def faceFailClient : QdrantClient :=
  ⟨fun coll _ _ _ =>
    if coll == "face_embeddings" then .error "connection error"
    else .ok [⟨"P1", 1/2, none, none, none⟩]⟩

/-- A similarity-index stub whose text-space search always fails with a
connection error while its face-space search returns `[(P2, 0.75)]`. -/
def textFailClient : QdrantClient :=
  ⟨fun coll _ _ _ =>
    if coll == "text_embeddings" then .error "connection error"
    else .ok [⟨"P2", 3/4, none, none, none⟩]⟩

/-- Witness for C7: both degraded directions at concrete clients, and the
concrete `(P1, 0.5)` scenario. -/
theorem retrieval_degrades_failed_space_witness :
    faceFailClient.search "face_embeddings" [1] none 50 =
      Except.error "connection error" ∧
    faceFailClient.search "text_embeddings" [2] none 50 =
      Except.ok [⟨"P1", 1/2, none, none, none⟩] ∧
    textFailClient.search "face_embeddings" [1] none 50 =
      Except.ok [⟨"P2", 3/4, none, none, none⟩] ∧
    textFailClient.search "text_embeddings" [2] none 50 =
      Except.error "connection error" ∧
    1 ≤ 5 ∧
    parallel_search faceFailClient (some [1]) (some [2]) 50 none none none
        none none =
      ([], ([⟨"P1", 1/2, none, none, none⟩] : List RawHit).map
        formatTextHit) ∧
    parallel_search textFailClient (some [1]) (some [2]) 50 none none none
        none none =
      ((([⟨"P2", 3/4, none, none, none⟩] : List RawHit).map formatFaceHit),
        []) ∧
    search_and_combine faceFailClient (some [1]) (some [2]) none none none
        none none 1 1 5 50 =
      Except.ok [⟨"P1", w2Norm 1 1 * (1/2), 0, 1/2, none, none, none⟩] :=
  ⟨rfl, rfl, rfl, rfl, by norm_num,
    ((retrieval_degrades_failed_space faceFailClient [1] [2] none none none
      none none 1 1 5 50 "connection error" [⟨"P1", 1/2, none, none, none⟩]).1
      (fun _ => rfl) (fun _ => rfl)).1,
    ((retrieval_degrades_failed_space textFailClient [1] [2] none none none
      none none 1 1 5 50 "connection error" [⟨"P2", 3/4, none, none, none⟩]).2.1
      (fun _ => rfl) (fun _ => rfl)).1,
    (retrieval_degrades_failed_space faceFailClient [1] [2] none none none
      none none 1 1 5 50 "connection error" [⟨"P1", 1/2, none, none, none⟩]).2.2
      (fun _ => rfl) (fun _ => rfl) (by norm_num)⟩

/-! ## Comparator lemmas -/

/-- Replace a Python-falsy optional int (`0`) by `none`. -/
def squashInt (x : Option Int) : Option Int :=
  if truthyInt x then x else none

/-- Replace a Python-falsy optional string (`""`) by `none`. -/
def squashStr (x : Option String) : Option String :=
  if truthyStr x then x else none

/-- Replace every falsy field of a missing-person record by `none`. -/
def squashMP (mp : MPRecord) : MPRecord :=
  ⟨squashInt mp.age, squashStr mp.gender, squashInt mp.height_cm,
   squashStr mp.hair_color, squashStr mp.eye_color⟩

/-- Replace every falsy field of a UIDB record by `none`. -/
def squashUIDB (u : UIDBRecord) : UIDBRecord :=
  ⟨squashInt u.estimated_age, squashStr u.gender, squashInt u.height_cm,
   squashStr u.hair_color, squashStr u.eye_color⟩

theorem truthyInt_squashInt (x : Option Int) :
    truthyInt (squashInt x) = truthyInt x := by
  unfold squashInt
  by_cases h : truthyInt x = true
  · rw [if_pos h]
  · rw [if_neg h, Bool.not_eq_true] at *
    rw [h]
    rfl

theorem truthyStr_squashStr (x : Option String) :
    truthyStr (squashStr x) = truthyStr x := by
  unfold squashStr
  by_cases h : truthyStr x = true
  · rw [if_pos h]
  · rw [if_neg h, Bool.not_eq_true] at *
    rw [h]
    rfl

theorem squashInt_of_truthy (x : Option Int) (h : truthyInt x = true) :
    squashInt x = x := by
  unfold squashInt
  rw [if_pos h]

theorem squashStr_of_truthy (x : Option String) (h : truthyStr x = true) :
    squashStr x = x := by
  unfold squashStr
  rw [if_pos h]

theorem intPairMatch_squash (a b : Option Int) :
    intPairMatch (squashInt a) (squashInt b) = intPairMatch a b := by
  unfold intPairMatch
  rw [truthyInt_squashInt, truthyInt_squashInt]
  by_cases h : (truthyInt a && truthyInt b) = true
  · rcases Bool.and_eq_true _ _ |>.mp h with ⟨h1, h2⟩
    rw [squashInt_of_truthy a h1, squashInt_of_truthy b h2]
  · rw [if_neg h, if_neg h]

theorem intPairDiff_squash (a b : Option Int) :
    intPairDiff (squashInt a) (squashInt b) = intPairDiff a b := by
  unfold intPairDiff
  rw [truthyInt_squashInt, truthyInt_squashInt]
  by_cases h : (truthyInt a && truthyInt b) = true
  · rcases Bool.and_eq_true _ _ |>.mp h with ⟨h1, h2⟩
    rw [squashInt_of_truthy a h1, squashInt_of_truthy b h2]
  · rw [if_neg h, if_neg h]

theorem strPairEq_squash (a b : Option String) :
    strPairEq (squashStr a) (squashStr b) = strPairEq a b := by
  unfold strPairEq
  rw [truthyStr_squashStr, truthyStr_squashStr]
  by_cases h : (truthyStr a && truthyStr b) = true
  · rcases Bool.and_eq_true _ _ |>.mp h with ⟨h1, h2⟩
    rw [squashStr_of_truthy a h1, squashStr_of_truthy b h2]
  · rw [if_neg h, if_neg h]

theorem strPairEqCI_squash (a b : Option String) :
    strPairEqCI (squashStr a) (squashStr b) = strPairEqCI a b := by
  unfold strPairEqCI
  rw [truthyStr_squashStr, truthyStr_squashStr]
  by_cases h : (truthyStr a && truthyStr b) = true
  · rcases Bool.and_eq_true _ _ |>.mp h with ⟨h1, h2⟩
    rw [squashStr_of_truthy a h1, squashStr_of_truthy b h2]
  · rw [if_neg h, if_neg h]

theorem intPairMatch_isSome (a b : Option Int) :
    (intPairMatch a b).isSome = (truthyInt a && truthyInt b) := by
  unfold intPairMatch
  by_cases h : (truthyInt a && truthyInt b) = true <;> simp [h]

theorem strPairEq_isSome (a b : Option String) :
    (strPairEq a b).isSome = (truthyStr a && truthyStr b) := by
  unfold strPairEq
  by_cases h : (truthyStr a && truthyStr b) = true <;> simp [h]

theorem strPairEqCI_isSome (a b : Option String) :
    (strPairEqCI a b).isSome = (truthyStr a && truthyStr b) := by
  unfold strPairEqCI
  by_cases h : (truthyStr a && truthyStr b) = true <;> simp [h]

/-- C8 (counterexample): gender comparison is case-SENSITIVE in the code —
`Male` vs `male` are case-insensitively equal, yet `gender_match` is
`false`. -/
theorem compare_gender_case_sensitive_counterexample :
    (compare_physical_attributes ⟨none, some "Male", none, none, none⟩
        ⟨none, some "male", none, none, none⟩).gender_match = some false ∧
    pyLower "Male" = pyLower "male" := by
  constructor
  · rfl
  · decide

/-- C8 (amended): per field — whenever that one field pair is carried
(truthy) on both sides, regardless of the other fields: the age and
height flags are true iff the absolute difference is at most 5, the hair
and eye colors compare case-insensitively — but gender compares
case-SENSITIVELY (`==` without `.lower()`, line 228 of
`face_recognition_integration.py`). -/
theorem compare_attribute_flag_policy (mp : MPRecord) (u : UIDBRecord) :
    ((truthyInt mp.age && truthyInt u.estimated_age) = true →
      ((compare_physical_attributes mp u).age_match = some true ↔
        (mp.age.getD 0 - u.estimated_age.getD 0).natAbs ≤ 5)) ∧
    ((truthyInt mp.height_cm && truthyInt u.height_cm) = true →
      ((compare_physical_attributes mp u).height_match = some true ↔
        (mp.height_cm.getD 0 - u.height_cm.getD 0).natAbs ≤ 5)) ∧
    ((truthyStr mp.gender && truthyStr u.gender) = true →
      ((compare_physical_attributes mp u).gender_match = some true ↔
        mp.gender.getD "" = u.gender.getD "")) ∧
    ((truthyStr mp.hair_color && truthyStr u.hair_color) = true →
      ((compare_physical_attributes mp u).hair_color_match = some true ↔
        pyLower (mp.hair_color.getD "") = pyLower (u.hair_color.getD ""))) ∧
    ((truthyStr mp.eye_color && truthyStr u.eye_color) = true →
      ((compare_physical_attributes mp u).eye_color_match = some true ↔
        pyLower (mp.eye_color.getD "") = pyLower (u.eye_color.getD ""))) := by
  refine ⟨fun ha => ?_, fun hh => ?_, fun hg => ?_, fun hhc => ?_,
    fun hec => ?_⟩
  · show intPairMatch mp.age u.estimated_age = some true ↔ _
    unfold intPairMatch
    rw [if_pos ha]
    simp only [Option.some.injEq, decide_eq_true_eq]
  · show intPairMatch mp.height_cm u.height_cm = some true ↔ _
    unfold intPairMatch
    rw [if_pos hh]
    simp only [Option.some.injEq, decide_eq_true_eq]
  · show strPairEq mp.gender u.gender = some true ↔ _
    unfold strPairEq
    rw [if_pos hg]
    simp only [Option.some.injEq, beq_iff_eq]
  · show strPairEqCI mp.hair_color u.hair_color = some true ↔ _
    unfold strPairEqCI
    rw [if_pos hhc]
    simp only [Option.some.injEq, beq_iff_eq]
  · show strPairEqCI mp.eye_color u.eye_color = some true ↔ _
    unfold strPairEqCI
    rw [if_pos hec]
    simp only [Option.some.injEq, beq_iff_eq]

/-- Witness for C8 (amended): one record pair carrying every field, so
each per-field implication is exercised with its antecedent discharged;
the pair carries only partially-matching fields (hair/eye differ in case,
gender in none). -/
theorem compare_attribute_flag_policy_witness :
    (truthyInt (some 40) && truthyInt (some 44)) = true ∧
    (truthyInt (some 170) && truthyInt (some 172)) = true ∧
    (truthyStr (some "Male") && truthyStr (some "Male")) = true ∧
    (truthyStr (some "Black") && truthyStr (some "black")) = true ∧
    (truthyStr (some "Brown") && truthyStr (some "BROWN")) = true ∧
    ((compare_physical_attributes
        ⟨some 40, some "Male", some 170, some "Black", some "Brown"⟩
        ⟨some 44, some "Male", some 172, some "black", some "BROWN"⟩).age_match =
          some true ↔ ((40 : Int) - 44).natAbs ≤ 5) ∧
    ((compare_physical_attributes
        ⟨some 40, some "Male", some 170, some "Black", some "Brown"⟩
        ⟨some 44, some "Male", some 172, some "black", some "BROWN"⟩).height_match =
          some true ↔ ((170 : Int) - 172).natAbs ≤ 5) ∧
    ((compare_physical_attributes
        ⟨some 40, some "Male", some 170, some "Black", some "Brown"⟩
        ⟨some 44, some "Male", some 172, some "black", some "BROWN"⟩).gender_match =
          some true ↔ "Male" = "Male") ∧
    ((compare_physical_attributes
        ⟨some 40, some "Male", some 170, some "Black", some "Brown"⟩
        ⟨some 44, some "Male", some 172, some "black", some "BROWN"⟩).hair_color_match =
          some true ↔ pyLower "Black" = pyLower "black") ∧
    ((compare_physical_attributes
        ⟨some 40, some "Male", some 170, some "Black", some "Brown"⟩
        ⟨some 44, some "Male", some 172, some "black", some "BROWN"⟩).eye_color_match =
          some true ↔ pyLower "Brown" = pyLower "BROWN") :=
  ⟨rfl, rfl, rfl, rfl, rfl,
    (compare_attribute_flag_policy
      ⟨some 40, some "Male", some 170, some "Black", some "Brown"⟩
      ⟨some 44, some "Male", some 172, some "black", some "BROWN"⟩).1 rfl,
    (compare_attribute_flag_policy
      ⟨some 40, some "Male", some 170, some "Black", some "Brown"⟩
      ⟨some 44, some "Male", some 172, some "black", some "BROWN"⟩).2.1 rfl,
    (compare_attribute_flag_policy
      ⟨some 40, some "Male", some 170, some "Black", some "Brown"⟩
      ⟨some 44, some "Male", some 172, some "black", some "BROWN"⟩).2.2.1 rfl,
    (compare_attribute_flag_policy
      ⟨some 40, some "Male", some 170, some "Black", some "Brown"⟩
      ⟨some 44, some "Male", some 172, some "black", some "BROWN"⟩).2.2.2.1 rfl,
    (compare_attribute_flag_policy
      ⟨some 40, some "Male", some 170, some "Black", some "Brown"⟩
      ⟨some 44, some "Male", some 172, some "black", some "BROWN"⟩).2.2.2.2
        rfl⟩

/-- C9: the overall percentage is always (number of true flags) /
(number of evaluated flags) × 100, with `0` when no field pair was
comparable; and the concrete scenario `{age 40, Male, 170}` vs
`{age 44, Male, 172}` yields all three flags true and `100.0`. -/
theorem compare_overall_percentage :
    (∀ (mp : MPRecord) (u : UIDBRecord),
      (compare_physical_attributes mp u).overall_match_percentage =
        if 0 < (matchFlags (compare_physical_attributes mp u)).countP
            (fun f => f.isSome) then
          (((matchFlags (compare_physical_attributes mp u)).countP
              (· == some true) : ℚ) /
            ((matchFlags (compare_physical_attributes mp u)).countP
              (fun f => f.isSome) : ℚ)) * 100
        else 0) ∧
    (compare_physical_attributes ⟨some 40, some "Male", some 170, none, none⟩
        ⟨some 44, some "Male", some 172, none, none⟩).age_match = some true ∧
    (compare_physical_attributes ⟨some 40, some "Male", some 170, none, none⟩
        ⟨some 44, some "Male", some 172, none, none⟩).height_match = some true ∧
    (compare_physical_attributes ⟨some 40, some "Male", some 170, none, none⟩
        ⟨some 44, some "Male", some 172, none, none⟩).gender_match = some true ∧
    (compare_physical_attributes ⟨some 40, some "Male", some 170, none, none⟩
        ⟨some 44, some "Male", some 172, none, none⟩).overall_match_percentage =
      100 := by
  refine ⟨fun mp u => rfl, rfl, rfl, rfl, ?_⟩
  show overallPct [some true, some true, some true, none, none] = 100
  norm_num [overallPct]

/-- C10: field presence is decided by Python truthiness — a field that is
`0` or `""` on either side yields no match flag (`isSome` of each flag
equals the conjunction of the two sides' truthiness), and the whole
comparator output is exactly what it would be had the falsy fields been
absent. -/
theorem compare_truthiness_presence (mp : MPRecord) (u : UIDBRecord) :
    compare_physical_attributes (squashMP mp) (squashUIDB u) =
      compare_physical_attributes mp u ∧
    (compare_physical_attributes mp u).age_match.isSome =
      (truthyInt mp.age && truthyInt u.estimated_age) ∧
    (compare_physical_attributes mp u).gender_match.isSome =
      (truthyStr mp.gender && truthyStr u.gender) ∧
    (compare_physical_attributes mp u).height_match.isSome =
      (truthyInt mp.height_cm && truthyInt u.height_cm) ∧
    (compare_physical_attributes mp u).hair_color_match.isSome =
      (truthyStr mp.hair_color && truthyStr u.hair_color) ∧
    (compare_physical_attributes mp u).eye_color_match.isSome =
      (truthyStr mp.eye_color && truthyStr u.eye_color) := by
  refine ⟨?_, intPairMatch_isSome _ _, strPairEq_isSome _ _,
    intPairMatch_isSome _ _, strPairEqCI_isSome _ _, strPairEqCI_isSome _ _⟩
  show compare_physical_attributes
      ⟨squashInt mp.age, squashStr mp.gender, squashInt mp.height_cm,
       squashStr mp.hair_color, squashStr mp.eye_color⟩
      ⟨squashInt u.estimated_age, squashStr u.gender, squashInt u.height_cm,
       squashStr u.hair_color, squashStr u.eye_color⟩ =
    compare_physical_attributes mp u
  unfold compare_physical_attributes
  rw [intPairMatch_squash, intPairDiff_squash, strPairEq_squash,
    intPairMatch_squash, intPairDiff_squash, strPairEqCI_squash,
    strPairEqCI_squash]
